import Mathlib

/-!
Verification of the StreamVision authentication mutations
(`src/server/src/schema/mutations/user.ts`) against the specification.

The GraphQL resolvers are shallowly embedded as pure functions from a
database state `DB` (the Users store, the VerificationCode store and the
pending expiry timers) to a pair of the resulting state and an
`Except String` outcome: every `throw new Error(msg)` in the source
becomes returning the state reached so far together with `.error msg`,
and every successful return becomes `.ok` of the returned value.
External effects (bcrypt, jwt, generateId, the validator utilities that
live outside the provided sources, and the deferred expiry task) are
modelled as noted on each definition.
-/

deriving instance DecidableEq for Except

/-- A row of the `Users` entity: identifier, full name, username, email,
stored password hash, birthday and admin flag. -/
structure User where
  id : Nat
  fullName : String
  userName : String
  email : String
  password : String
  birthday : String
  isAdmin : Bool
  deriving Repr, DecidableEq

/-- A row of the `VerificationCode` entity: the email it was issued for
and the code string. -/
structure VCode where
  email : String
  code : String
  deriving Repr, DecidableEq

/-- The database state threaded through the resolvers: the Users store,
the VerificationCode store, the pending expiry timers scheduled by
`removeExpiredAuth` (email, code, delay), and the auto-increment id the
next inserted user receives. -/
structure DB where
  users : List User
  codes : List VCode
  timers : List (String × String × Nat)
  nextId : Nat
  deriving Repr, DecidableEq

/-- Modelled from the spec: bcrypt.hash, "a salted one-way hash" — modelled
as a deterministic tagging function (the salt is irrelevant to the claims;
what matters is that the stored value is the hash of the plaintext, and
that hash and plaintext differ). -/
def bcryptHash (p : String) : String := "$2a$10$" ++ p

/-- Modelled from the spec: bcrypt.compare(p, h) — true exactly when `h`
is the hash of `p`. -/
def bcryptCompare (p h : String) : Bool := bcryptHash p == h

/-- Does a character belong to the "special character" class of the
password-strength rule (not a letter, not a digit)? -/
def isSpecialChar (c : Char) : Bool := !(c.isAlpha || c.isDigit)

/-- Modelled from the spec: `checkValidPassword` from `utils` (not among
the provided sources): "password strength (length ≥ 8,
upper/lower/digit/special)". -/
def checkValidPassword (p : String) : Bool :=
  decide (p.length ≥ 8) && p.data.any Char.isUpper && p.data.any Char.isLower
    && p.data.any Char.isDigit && p.data.any isSpecialChar

/-- The remaining format validators from `utils` (email, full name,
username, birthday) are not among the provided sources and the spec pins
down no format for them, so the resolvers are parameterised over them:
every claim proved below holds for an arbitrary choice. -/
structure Validators where
  validEmail : String → Bool
  validFullName : String → Bool
  validUserName : String → Bool
  validBirthday : String → Bool

/-- The arguments of the `createUser` mutation, in source order.
`isAdmin` is a nullable GraphQLBoolean, hence `Option Bool`. -/
structure CreateArgs where
  fullName : String
  userName : String
  email : String
  password : String
  passwordConfirmation : String
  birthday : String
  isAdmin : Option Bool
  deriving Repr, DecidableEq

/-- `CREATE_USER.resolve`: validates email, full name, username, password
strength, password confirmation and birthday in source order; rejects if a
user with the same email or username exists; otherwise defaults a falsy
`isAdmin` to `false`, hashes the password, inserts the user and returns
the submitted `args` unchanged. -/
def createUser (V : Validators) (db : DB) (a : CreateArgs) :
    DB × Except String CreateArgs :=
  if !(V.validEmail a.email) then (db, .error "Unvalid email !")
  else if !(V.validFullName a.fullName) then
    (db, .error "Unvalid FullName! \nPlease use the following format : firstname (middlename) lastname")
  else if !(V.validUserName a.userName) then (db, .error "Unvalid userName !")
  else if !(checkValidPassword a.password) then
    (db, .error "Password must be at least 8 characters and contains uppercase, lowercase, digits and special characters !")
  else if a.password != a.passwordConfirmation then
    (db, .error "Password must match with passwordConfirmation !")
  else if !(V.validBirthday a.birthday) then (db, .error "Unvalid birthday !")
  else
    match db.users.find? (fun u => u.email == a.email || u.userName == a.userName) with
    | some _ => (db, .error "User already registered !")
    | none =>
      let isAdmin : Bool := match a.isAdmin with
        | some true => true
        | _ => false
      let hashed := bcryptHash a.password
      let inserted : User :=
        { id := db.nextId, fullName := a.fullName, userName := a.userName,
          email := a.email, password := hashed, birthday := a.birthday,
          isAdmin := isAdmin }
      ({ db with users := db.users ++ [inserted], nextId := db.nextId + 1 }, .ok a)

/-- Modelled from the spec: the environment-provided token-signing key;
the source falls back to the literal "secret_key" when the environment
variable is unset, and the model uses that fallback. -/
def accessTokenSecret : String := "secret_key"

/-- The fixed expiry passed to jwt.sign by `LOGIN`. -/
def oneDay : String := "1d"

/-- Modelled from the spec: jwt.sign — "a signed token carrying identity
claims with 1-day expiry". The token is modelled as the signed claim set
itself; decoding is projection of the payload fields. -/
structure SignedToken where
  id : Nat
  fullName : String
  email : String
  username : String
  isAdmin : Bool
  secret : String
  expiresIn : String
  deriving Repr, DecidableEq

/-- `LOGIN.resolve`: looks the user up by email or username equal to the
`email` argument; rejects if absent or if the password does not match the
stored hash; otherwise signs and returns the identity claims with 1-day
expiry. Performs no writes. -/
def login (db : DB) (email password : String) :
    DB × Except String SignedToken :=
  match db.users.find? (fun u => u.email == email || u.userName == email) with
  | none => (db, .error "User doesn\x27t exist !")
  | some user =>
    if !(bcryptCompare password user.password) then
      (db, .error "Wrong password !")
    else
      (db, .ok { id := user.id, fullName := user.fullName, email := user.email,
                 username := user.userName, isAdmin := user.isAdmin,
                 secret := accessTokenSecret, expiresIn := oneDay })

/-- `UPDATE_USER_PASSWORD.resolve`: requires a user with the email and a
VerificationCode row matching (email, code); requires
oldPassword == newPassword; then, only when the old password does NOT
match the stored hash and the new password passes strength validation,
updates the stored hash of every user with that email (TypeORM
`update({email}, …)`) and deletes every VerificationCode row with that
code (TypeORM `delete({code})`); in all other cases throws. -/
def updateUserPassword (db : DB) (email oldPassword newPassword code : String) :
    DB × Except String Unit :=
  match db.users.find? (fun u => u.email == email) with
  | none => (db, .error "USER DOESN\x27T EXIST !")
  | some user =>
    match db.codes.find? (fun v => v.email == email && v.code == code) with
    | none => (db, .error "Authorization session expired !")
    | some _ =>
      if oldPassword != newPassword then
        (db, .error "Password confirmation doesn\x27t match with password !")
      else
        let passwordMatch := bcryptCompare oldPassword user.password
        let hashedNewPassword := bcryptHash newPassword
        if !passwordMatch then
          if !(checkValidPassword newPassword) then
            (db, .error "Password must be at least 8 characters and contains uppercase, lowercase, digits and special characters !")
          else
            ({ db with
                users := db.users.map (fun u =>
                  if u.email == email then { u with password := hashedNewPassword } else u),
                codes := db.codes.filter (fun v => !(v.code == code)) },
             .ok ())
        else (db, .error "Please choose another password")

/-- JavaScript truthiness of a nullable GraphQLString argument: present
and non-empty. -/
def truthy : Option String → Bool
  | none => false
  | some s => s != ""

/-- The arguments of the `updateUser` mutation: the id plus the nullable
string fields, in source order. -/
structure UpdateArgs where
  id : Nat
  userName : Option String
  fullName : Option String
  email : Option String
  oldPassword : Option String
  newPassword : Option String
  birthday : Option String
  deriving Repr, DecidableEq

/-- The `updated_usr` object built up by `UPDATE_USER.resolve`: a partial
user record holding only the fields to be persisted. -/
structure UserPatch where
  userName : Option String := none
  fullName : Option String := none
  email : Option String := none
  password : Option String := none
  birthday : Option String := none
  deriving Repr, DecidableEq

/-- `Object.keys(updated_usr).length` is non-zero: at least one field of
the patch is set. -/
def UserPatch.nonEmpty (p : UserPatch) : Bool :=
  p.userName.isSome || p.fullName.isSome || p.email.isSome
    || p.password.isSome || p.birthday.isSome

/-- TypeORM `Users.update({id}, updated_usr)` applied to one row: fields
present in the patch replace the stored ones, absent fields are kept. -/
def UserPatch.apply (p : UserPatch) (u : User) : User :=
  { u with
      userName := p.userName.getD u.userName,
      fullName := p.fullName.getD u.fullName,
      email := p.email.getD u.email,
      password := p.password.getD u.password,
      birthday := p.birthday.getD u.birthday }

/-- The field-collection phase of `UPDATE_USER.resolve`: the truthy ones
among {userName, fullName, email, birthday} are placed into
`updated_usr`, in source order. -/
def buildPatch (a : UpdateArgs) : UserPatch :=
  let p0 : UserPatch := {}
  let p1 := if truthy a.userName then { p0 with userName := a.userName } else p0
  let p2 := if truthy a.fullName then { p1 with fullName := a.fullName } else p1
  let p3 := if truthy a.email then { p2 with email := a.email } else p2
  if truthy a.birthday then { p3 with birthday := a.birthday } else p3

/-- `UPDATE_USER.resolve`: collects the truthy ones among
{userName, fullName, email, birthday} into `updated_usr`; loads the user
by id (rejects if absent); if both passwords are truthy, rejects when
they are equal, rejects when oldPassword does not match the stored hash,
and otherwise adds the hash of newPassword to the patch; finally applies
the patch to the rows with that id if it is non-empty, else rejects. -/
def updateUser (db : DB) (a : UpdateArgs) : DB × Except String Unit :=
  let p4 := buildPatch a
  match db.users.find? (fun u => u.id == a.id) with
  | none => (db, .error "USER DOESN\x27T EXIST !")
  | some user =>
    let finish (p : UserPatch) : DB × Except String Unit :=
      if p.nonEmpty then
        ({ db with users := db.users.map (fun u =>
            if u.id == a.id then p.apply u else u) }, .ok ())
      else (db, .error "NO ITEM SELECTED !")
    if truthy a.oldPassword && truthy a.newPassword then
      let oldP := a.oldPassword.getD ""
      let newP := a.newPassword.getD ""
      if oldP == newP then (db, .error "PLEASE CHOOSE ANOTHER PASSWORD !")
      else if bcryptCompare oldP user.password then
        finish { p4 with password := some (bcryptHash newP) }
      else (db, .error "Password doesn\x27t match")
    else finish p4

/-- The delay passed to `removeExpiredAuth` by `RESET_USER`. -/
def resetDelay : Nat := 550

/-- `RESET_USER.resolve`: rejects if no user with the email exists;
otherwise deletes every VerificationCode row for the email, inserts a
fresh one, and schedules its automatic deletion after `resetDelay` time
units. The fresh code produced by `generateId` (a `utils` function not
among the provided sources) enters as the `freshCode` argument;
`removeExpiredAuth` — modelled from the spec: "schedules automatic
deletion after a fixed delay (550 time units)" — is modelled by
appending a pending timer. The asynchronous mail send has no effect on
the stores. -/
def resetUser (db : DB) (email freshCode : String) : DB × Except String Unit :=
  match db.users.find? (fun u => u.email == email) with
  | none => (db, .error "USER DOESN\x27T EXIST !")
  | some _ =>
    ({ db with
        codes := db.codes.filter (fun v => !(v.email == email))
          ++ [{ email := email, code := freshCode }],
        timers := db.timers ++ [(email, freshCode, resetDelay)] },
     .ok ())

/-- Modelled from the spec: the deferred task scheduled by
`removeExpiredAuth` firing — it deletes the verification code it was
scheduled for and discharges the timer. -/
def fireExpiry (db : DB) (email code : String) : DB :=
  { db with
      codes := db.codes.filter (fun v => !(v.email == email && v.code == code)),
      timers := db.timers.filter (fun t => !(t.1 == email && t.2.1 == code)) }

/-- `CHECK_VERIFICATION_CODE.resolve`: returns the sentinel "OK!" if a
VerificationCode row matching (email, code) exists, else throws. It
performs no writes: the state is returned unchanged on both paths. -/
def checkCode (db : DB) (email code : String) : DB × Except String String :=
  match db.codes.find? (fun v => v.code == code && v.email == email) with
  | none => (db, .error "Unvalid code !")
  | some _ => (db, .ok "OK!")

/-- The invariant of the spec: at most one live verification code per
email. -/
def atMostOneCodePerEmail (db : DB) : Prop :=
  ∀ e : String, (db.codes.countP (fun v => v.email == e)) ≤ 1

/-! ### Fixtures used by witnesses and counterexamples -/

/-- A trivial instantiation of the external format validators. -/
def allValid : Validators :=
  { validEmail := fun _ => true, validFullName := fun _ => true,
    validUserName := fun _ => true, validBirthday := fun _ => true }

/-- A concrete stored user whose password hash is the hash of
"OldPass1!". -/
def wUser : User :=
  { id := 1, fullName := "Ada B Lovelace", userName := "ada",
    email := "ada@mail.com", password := bcryptHash "OldPass1!",
    birthday := "1815-12-10", isAdmin := false }

/-- A concrete state: one user, one live verification code for them. -/
def wDB : DB :=
  { users := [wUser], codes := [{ email := "ada@mail.com", code := "1234" }],
    timers := [], nextId := 2 }

/-! ### Helper lemmas -/

theorem truthy_isSome (o : Option String) (h : truthy o = true) :
    o.isSome = true := by
  cases o <;> simp [truthy] at h ⊢

theorem bcryptHash_ne_plain (p : String) : bcryptHash p ≠ p := by
  intro h
  have hlen := congrArg String.length h
  simp [bcryptHash, String.length_append] at hlen
  exact absurd hlen (by decide)

/-- The shape of a successful `createUser`: the submitted args are
echoed and exactly the hashed record is appended. -/
theorem createUser_success_shape (V : Validators) (db : DB) (a : CreateArgs)
    (h : (createUser V db a).2.isOk = true) :
    createUser V db a =
      ({ db with
          users := db.users ++
            [{ id := db.nextId, fullName := a.fullName, userName := a.userName,
               email := a.email, password := bcryptHash a.password,
               birthday := a.birthday, isAdmin := a.isAdmin.getD false }],
          nextId := db.nextId + 1 }, .ok a) := by
  have hadm : (match a.isAdmin with | some true => true | _ => false) = a.isAdmin.getD false := by
    rcases a.isAdmin with _ | b
    · rfl
    · cases b <;> rfl
  simp only [createUser] at h ⊢
  repeat' split at h
  all_goals simp_all [hadm, Except.isOk, Except.toBool]

@[simp]
theorem isOk_ok {α : Type} (x : α) : (Except.ok x : Except String α).isOk = true := rfl

@[simp]
theorem isOk_error {α : Type} (m : String) :
    (Except.error m : Except String α).isOk = false := rfl

/-! ### Claims -/

/-- C1: for `updatePassword(email, oldPassword, newPassword, code)` when
the user exists, a VerificationCode row matching (email, code) exists and
oldPassword equals newPassword: if oldPassword does NOT match the stored
hash and newPassword passes strength validation, the stored hash becomes
the hash of newPassword and the verification code is deleted; in every
other case — including when oldPassword DOES match the stored hash — the
call rejects with an error. -/
theorem updateUserPassword_correct
    (db : DB) (email oldPassword newPassword code : String) (user : User)
    (hu : db.users.find? (fun u => u.email == email) = some user)
    (hc : (db.codes.find? (fun v => v.email == email && v.code == code)).isSome = true)
    (he : oldPassword = newPassword) :
    (bcryptCompare oldPassword user.password = false →
       checkValidPassword newPassword = true →
       updateUserPassword db email oldPassword newPassword code =
         ({ db with
             users := db.users.map (fun u =>
               if u.email == email then { u with password := bcryptHash newPassword } else u),
             codes := db.codes.filter (fun v => !(v.code == code)) },
          .ok ()))
  ∧ (bcryptCompare oldPassword user.password = true →
       updateUserPassword db email oldPassword newPassword code =
         (db, .error "Please choose another password"))
  ∧ (bcryptCompare oldPassword user.password = false →
       checkValidPassword newPassword = false →
       updateUserPassword db email oldPassword newPassword code =
         (db, .error "Password must be at least 8 characters and contains uppercase, lowercase, digits and special characters !")) := by
  obtain ⟨vc, hvc⟩ := Option.isSome_iff_exists.mp hc
  subst he
  refine ⟨?_, ?_, ?_⟩
  · intro hm hv
    simp [updateUserPassword, hu, hvc, hm, hv]
  · intro hm
    simp [updateUserPassword, hu, hvc, hm]
  · intro hm hv
    simp [updateUserPassword, hu, hvc, hm, hv]

/-- Witness for C1 at a concrete state: the old password "NewPass1!"
does not match the stored hash of "OldPass1!", the new password is
strong, so the hash is replaced and the code row removed. -/
theorem updateUserPassword_correct_witness :
    updateUserPassword wDB "ada@mail.com" "NewPass1!" "NewPass1!" "1234" =
      ({ wDB with
          users := wDB.users.map (fun u =>
            if u.email == "ada@mail.com" then { u with password := bcryptHash "NewPass1!" } else u),
          codes := wDB.codes.filter (fun v => !(v.code == "1234")) },
       .ok ()) :=
  (updateUserPassword_correct wDB "ada@mail.com" "NewPass1!" "NewPass1!" "1234" wUser
    (by decide) (by decide) rfl).1 (by decide) (by decide)

theorem find?_filter_code_none (l : List VCode) (code email : String) :
    (l.filter (fun v => !(v.code == code))).find?
      (fun v => v.code == code && v.email == email) = none := by
  apply List.find?_eq_none.mpr
  intro v hv
  have hkept := (List.mem_filter.mp hv).2
  simp at hkept ⊢
  intro hc
  exact absurd hc hkept

/-- C2 counterexample: checkCode performs no write, so on the state it
returns, a second checkCode on the same (email, code) pair succeeds
again — a verification code is NOT single-use through checkCode. -/
theorem checkCode_not_single_use :
    (checkCode wDB "ada@mail.com" "1234").2.isOk = true ∧
    (match checkCode wDB "ada@mail.com" "1234" with
      | (db1, Except.ok _) => (checkCode db1 "ada@mail.com" "1234").2.isOk
      | (_, Except.error _) => false) = true := by
  decide

/-- C2 (amended): checkCode does not consume the code — it leaves the
state unchanged and succeeds exactly when a matching (email, code) row
exists, so it can succeed repeatedly; but after a successful
updatePassword consumes the code, a subsequent checkCode on the same
(email, code) fails. -/
theorem checkCode_repeatable_until_consumed :
    (∀ db email code,
       (checkCode db email code).1 = db ∧
       ((checkCode db email code).2.isOk = true ↔
         (db.codes.find? (fun v => v.code == code && v.email == email)).isSome = true))
  ∧ (∀ db email oldP newP code db1,
       updateUserPassword db email oldP newP code = (db1, .ok ()) →
       (checkCode db1 email code).2 = .error "Unvalid code !") := by
  constructor
  · intro db email code
    cases hf : db.codes.find? (fun v => v.code == code && v.email == email) with
    | none => simp [checkCode, hf]
    | some v => simp [checkCode, hf]
  · intro db email oldP newP code db1 h
    simp only [updateUserPassword] at h
    repeat' split at h
    any_goals simp_all
    subst h
    simp only [checkCode, find?_filter_code_none]

/-- Witness for C2 (amended), part 2, on the concrete state: after the
successful password update consumes code "1234", checking it fails. -/
theorem checkCode_repeatable_until_consumed_witness :
    (checkCode { users := [{ wUser with password := bcryptHash "NewPass1!" }],
                 codes := [], timers := [], nextId := 2 } "ada@mail.com" "1234").2 =
      .error "Unvalid code !" :=
  checkCode_repeatable_until_consumed.2 wDB "ada@mail.com" "NewPass1!" "NewPass1!"
    "1234" _ (by decide)

/-- C3: for updateUser on an existing user with no password pair
supplied: if none of the optional fields is present the call rejects and
the state is unchanged; if exactly one field is present, the persisted
update rewrites exactly that field of the user row and leaves every other
field (and the rest of the state) unchanged. -/
theorem updateUser_frame
    (db : DB) (a : UpdateArgs) (user : User)
    (hu : db.users.find? (fun u => u.id == a.id) = some user)
    (hnp : (truthy a.oldPassword && truthy a.newPassword) = false) :
    (truthy a.userName = false → truthy a.fullName = false →
       truthy a.email = false → truthy a.birthday = false →
       updateUser db a = (db, .error "NO ITEM SELECTED !"))
  ∧ (truthy a.userName = true → truthy a.fullName = false →
       truthy a.email = false → truthy a.birthday = false →
       updateUser db a =
         ({ db with users := db.users.map (fun u =>
             if u.id == a.id then { u with userName := a.userName.getD u.userName } else u) },
          .ok ()))
  ∧ (truthy a.userName = false → truthy a.fullName = true →
       truthy a.email = false → truthy a.birthday = false →
       updateUser db a =
         ({ db with users := db.users.map (fun u =>
             if u.id == a.id then { u with fullName := a.fullName.getD u.fullName } else u) },
          .ok ()))
  ∧ (truthy a.userName = false → truthy a.fullName = false →
       truthy a.email = true → truthy a.birthday = false →
       updateUser db a =
         ({ db with users := db.users.map (fun u =>
             if u.id == a.id then { u with email := a.email.getD u.email } else u) },
          .ok ()))
  ∧ (truthy a.userName = false → truthy a.fullName = false →
       truthy a.email = false → truthy a.birthday = true →
       updateUser db a =
         ({ db with users := db.users.map (fun u =>
             if u.id == a.id then { u with birthday := a.birthday.getD u.birthday } else u) },
          .ok ())) := by
  refine ⟨?_, ?_, ?_, ?_, ?_⟩ <;> intro h1 h2 h3 h4
  · simp_all [updateUser, buildPatch, UserPatch.nonEmpty, UserPatch.apply]
  · simp_all [updateUser, buildPatch, UserPatch.nonEmpty, UserPatch.apply,
      truthy_isSome _ h1]
  · simp_all [updateUser, buildPatch, UserPatch.nonEmpty, UserPatch.apply,
      truthy_isSome _ h2]
  · simp_all [updateUser, buildPatch, UserPatch.nonEmpty, UserPatch.apply,
      truthy_isSome _ h3]
  · simp_all [updateUser, buildPatch, UserPatch.nonEmpty, UserPatch.apply,
      truthy_isSome _ h4]

/-- Witness for C3 at a concrete state: updating only the username
persists exactly that field. -/
theorem updateUser_frame_witness :
    updateUser wDB
      { id := 1, userName := some "ada2", fullName := none, email := none,
        oldPassword := none, newPassword := none, birthday := none } =
      ({ wDB with users := wDB.users.map (fun u =>
          if u.id == 1 then { u with userName := (some "ada2").getD u.userName } else u) },
       .ok ()) :=
  ((updateUser_frame wDB
      { id := 1, userName := some "ada2", fullName := none, email := none,
        oldPassword := none, newPassword := none, birthday := none } wUser
      (by decide) (by decide)).2.1 (by decide) (by decide) (by decide) (by decide))

/-- The updateUser argument set that exposes the missing strength check:
a correct old password and a weak new password. -/
def weakArgs : UpdateArgs :=
  { id := 1, userName := none, fullName := none, email := none,
    oldPassword := some "OldPass1!", newPassword := some "weak",
    birthday := none }

/-- C4 counterexample: the password branch of updateUser performs no
strength validation — with the correct old password, the weak new
password "weak" is accepted and its hash is stored. -/
theorem updateUser_stores_weak_password :
    checkValidPassword "weak" = false ∧
    (updateUser wDB weakArgs).2.isOk = true ∧
    (updateUser wDB weakArgs).1.users.map User.password = [bcryptHash "weak"] := by
  decide

/-- C4 (amended): every weak password (shorter than 8 characters, or
missing an uppercase letter, lowercase letter, digit or special
character) is rejected by signup and by updatePassword — those paths
never store it and leave the state unchanged; the password branch of
updateUser, however, performs no strength validation and can store a
weak password. -/
theorem weak_password_rejected
    (p : String) (hw : checkValidPassword p = false) :
    (∀ V db a, a.password = p →
       (createUser V db a).2.isOk = false ∧ (createUser V db a).1 = db)
  ∧ (∀ db email oldP code,
       (updateUserPassword db email oldP p code).2.isOk = false ∧
       (updateUserPassword db email oldP p code).1 = db) := by
  constructor
  · intro V db a ha
    subst ha
    simp only [createUser]
    repeat' split
    all_goals simp_all
  · intro db email oldP code
    simp only [updateUserPassword]
    repeat' split
    all_goals simp_all

/-- Witness for C4 (amended): the weak password "weak" is rejected by
updatePassword on the concrete state, which is left unchanged. -/
theorem weak_password_rejected_witness :
    (updateUserPassword wDB "ada@mail.com" "weak" "weak" "1234").2.isOk = false ∧
    (updateUserPassword wDB "ada@mail.com" "weak" "weak" "1234").1 = wDB :=
  (weak_password_rejected "weak" (by decide)).2 wDB "ada@mail.com" "weak" "1234"

/-- C5: whenever a user with the submitted email or the submitted
username already exists, signup rejects and no user record is inserted
(the whole state is unchanged), for any choice of the external format
validators. -/
theorem createUser_duplicate_rejected
    (V : Validators) (db : DB) (a : CreateArgs)
    (hdup : (db.users.find? (fun u =>
        u.email == a.email || u.userName == a.userName)).isSome = true) :
    (createUser V db a).2.isOk = false ∧ (createUser V db a).1 = db := by
  obtain ⟨u, hu⟩ := Option.isSome_iff_exists.mp hdup
  simp only [createUser]
  repeat' split
  all_goals simp_all

/-- Witness for C5: signing up again with the stored user's email (and a
fresh username) is rejected and the state is unchanged. -/
theorem createUser_duplicate_rejected_witness :
    (createUser allValid wDB
      { fullName := "Ada Twin", userName := "ada2", email := "ada@mail.com",
        password := "NewPass1!", passwordConfirmation := "NewPass1!",
        birthday := "1815-12-10", isAdmin := none }).2.isOk = false ∧
    (createUser allValid wDB
      { fullName := "Ada Twin", userName := "ada2", email := "ada@mail.com",
        password := "NewPass1!", passwordConfirmation := "NewPass1!",
        birthday := "1815-12-10", isAdmin := none }).1 = wDB :=
  createUser_duplicate_rejected allValid wDB
    { fullName := "Ada Twin", userName := "ada2", email := "ada@mail.com",
      password := "NewPass1!", passwordConfirmation := "NewPass1!",
      birthday := "1815-12-10", isAdmin := none } (by decide)

/-- C6: login looks the user up by email or username equal to the
identifier; it rejects when no such user exists or the password does not
match the stored hash; with matching credentials it returns the signed
token with 1-day expiry whose decoded claims are exactly
{id, fullName, email, username, isAdmin} of the stored user. -/
theorem login_correct (db : DB) (identifier password : String) :
    (db.users.find? (fun u => u.email == identifier || u.userName == identifier) = none →
       login db identifier password = (db, .error "User doesn\x27t exist !"))
  ∧ (∀ user,
       db.users.find? (fun u => u.email == identifier || u.userName == identifier) = some user →
       (bcryptCompare password user.password = false →
          login db identifier password = (db, .error "Wrong password !"))
     ∧ (bcryptCompare password user.password = true →
          login db identifier password =
            (db, .ok { id := user.id, fullName := user.fullName, email := user.email,
                       username := user.userName, isAdmin := user.isAdmin,
                       secret := accessTokenSecret, expiresIn := oneDay }))) := by
  refine ⟨?_, ?_⟩
  · intro hf
    simp [login, hf]
  · intro user hf
    constructor
    · intro hm
      simp [login, hf, hm]
    · intro hm
      simp [login, hf, hm]

/-- Witness for C6: on the concrete state the stored user logs in with
the correct password and receives exactly their identity claims with
1-day expiry. -/
theorem login_correct_witness :
    login wDB "ada@mail.com" "OldPass1!" =
      (wDB, .ok { id := wUser.id, fullName := wUser.fullName, email := wUser.email,
                  username := wUser.userName, isAdmin := wUser.isAdmin,
                  secret := accessTokenSecret, expiresIn := oneDay }) :=
  ((login_correct wDB "ada@mail.com" "OldPass1!").2 wUser (by decide)).2 (by decide)

theorem codes_createUser (V : Validators) (db : DB) (a : CreateArgs) :
    ((createUser V db a).1).codes = db.codes := by
  simp only [createUser]
  repeat' split
  all_goals rfl

theorem state_login (db : DB) (e p : String) : (login db e p).1 = db := by
  simp only [login]
  repeat' split
  all_goals rfl

theorem state_checkCode (db : DB) (e c : String) : (checkCode db e c).1 = db := by
  simp only [checkCode]
  split
  all_goals rfl

theorem codes_updateUser (db : DB) (a : UpdateArgs) :
    ((updateUser db a).1).codes = db.codes := by
  simp only [updateUser]
  repeat' split
  all_goals rfl

theorem codes_updateUserPassword_sublist (db : DB) (e o n c : String) :
    ((updateUserPassword db e o n c).1).codes.Sublist db.codes := by
  simp only [updateUserPassword]
  repeat' split
  all_goals first
    | exact List.Sublist.refl _
    | exact List.filter_sublist _

/-- C7: resetRequest rejects when no user with the email exists;
otherwise it replaces every prior VerificationCode row for the email by
the freshly generated one and schedules its deletion after 550 time
units; and the intended invariant — at most one live verification code
per email — is preserved by every operation of the sequential model. -/
theorem resetUser_correct :
    (∀ db email fc, db.users.find? (fun u => u.email == email) = none →
       resetUser db email fc = (db, .error "USER DOESN\x27T EXIST !"))
  ∧ (∀ db email fc, (db.users.find? (fun u => u.email == email)).isSome = true →
       resetUser db email fc =
         ({ db with
             codes := db.codes.filter (fun v => !(v.email == email)) ++
               [{ email := email, code := fc }],
             timers := db.timers ++ [(email, fc, resetDelay)] }, .ok ()))
  ∧ (∀ db, atMostOneCodePerEmail db →
       (∀ V a, atMostOneCodePerEmail (createUser V db a).1)
     ∧ (∀ e p, atMostOneCodePerEmail (login db e p).1)
     ∧ (∀ e o n c, atMostOneCodePerEmail (updateUserPassword db e o n c).1)
     ∧ (∀ a, atMostOneCodePerEmail (updateUser db a).1)
     ∧ (∀ e fc, atMostOneCodePerEmail (resetUser db e fc).1)
     ∧ (∀ e c, atMostOneCodePerEmail (fireExpiry db e c))
     ∧ (∀ e c, atMostOneCodePerEmail (checkCode db e c).1)) := by
  refine ⟨?_, ?_, ?_⟩
  · intro db email fc hf
    simp [resetUser, hf]
  · intro db email fc hf
    obtain ⟨u, hu⟩ := Option.isSome_iff_exists.mp hf
    simp [resetUser, hu]
  · intro db hinv
    refine ⟨?_, ?_, ?_, ?_, ?_, ?_, ?_⟩
    · intro V a e
      rw [show ((createUser V db a).1).codes = db.codes from codes_createUser V db a]
      exact hinv e
    · intro e p e2
      rw [state_login]
      exact hinv e2
    · intro e o n c e2
      exact Nat.le_trans
        ((codes_updateUserPassword_sublist db e o n c).countP_le _) (hinv e2)
    · intro a e2
      rw [show ((updateUser db a).1).codes = db.codes from codes_updateUser db a]
      exact hinv e2
    · intro e fc e2
      simp only [resetUser]
      split
      · exact hinv e2
      · simp only [List.countP_append]
        by_cases he : e2 = e
        · subst he
          have h0 : (db.codes.filter (fun v => !(v.email == e2))).countP
              (fun v => v.email == e2) = 0 := by
            apply List.countP_eq_zero.mpr
            intro v hv
            have hkept := (List.mem_filter.mp hv).2
            simp_all
          simp [h0, List.countP_cons, List.countP_nil]
        · have h1 : (List.countP (fun v => v.email == e2)
              [({ email := e, code := fc } : VCode)]) = 0 := by
            simp [List.countP_cons, List.countP_nil]
            intro hc
            exact absurd hc (Ne.symm he)
          rw [h1]
          simp only [Nat.add_zero]
          exact Nat.le_trans
            ((List.filter_sublist db.codes).countP_le _) (hinv e2)
    · intro e c e2
      exact Nat.le_trans
        ((List.filter_sublist db.codes).countP_le _) (hinv e2)
    · intro e c e2
      rw [state_checkCode]
      exact hinv e2

/-- Witness for C7: on the concrete state a reset for the stored user
replaces their code rows by the fresh code "5678" and schedules its
deletion after 550 time units. -/
theorem resetUser_correct_witness :
    resetUser wDB "ada@mail.com" "5678" =
      ({ wDB with
          codes := wDB.codes.filter (fun v => !(v.email == "ada@mail.com")) ++
            [{ email := "ada@mail.com", code := "5678" }],
          timers := wDB.timers ++ [("ada@mail.com", "5678", resetDelay)] }, .ok ()) :=
  resetUser_correct.2.1 wDB "ada@mail.com" "5678" (by decide)

/-- A fresh, valid signup argument set used by witnesses. -/
def gArgs : CreateArgs :=
  { fullName := "Grace B Hopper", userName := "grace", email := "grace@mail.com",
    password := "NewPass1!", passwordConfirmation := "NewPass1!",
    birthday := "1906-12-09", isAdmin := none }

/-- C8: a successful signup returns exactly the submitted argument
fields — the echo of the request, plaintext password included — while
the stored record differs from it: it is appended with the generated id
and the hashed password, which is never equal to the plaintext. -/
theorem createUser_echoes_args
    (V : Validators) (db : DB) (a : CreateArgs)
    (h : (createUser V db a).2.isOk = true) :
    (createUser V db a).2 = .ok a
  ∧ (createUser V db a).1.users =
      db.users ++ [{ id := db.nextId, fullName := a.fullName, userName := a.userName,
                     email := a.email, password := bcryptHash a.password,
                     birthday := a.birthday, isAdmin := a.isAdmin.getD false }]
  ∧ bcryptHash a.password ≠ a.password := by
  have hs := createUser_success_shape V db a h
  rw [hs]
  exact ⟨rfl, rfl, bcryptHash_ne_plain a.password⟩

/-- Witness for C8 on a concrete successful signup. -/
theorem createUser_echoes_args_witness :
    (createUser allValid wDB gArgs).2 = .ok gArgs
  ∧ (createUser allValid wDB gArgs).1.users =
      wDB.users ++ [{ id := wDB.nextId, fullName := gArgs.fullName,
                      userName := gArgs.userName, email := gArgs.email,
                      password := bcryptHash gArgs.password,
                      birthday := gArgs.birthday,
                      isAdmin := gArgs.isAdmin.getD false }]
  ∧ bcryptHash gArgs.password ≠ gArgs.password :=
  createUser_echoes_args allValid wDB gArgs (by decide)

/-- C9: every rejection of createUser, login, updateUserPassword,
updateUser and resetUser is raised before any write: whenever the
outcome is an error, the returned state — Users store, VerificationCode
store and timers alike — is exactly the input state. -/
theorem mutations_atomic_on_error :
    (∀ V db a, (createUser V db a).2.isOk = false → (createUser V db a).1 = db)
  ∧ (∀ db e p, (login db e p).2.isOk = false → (login db e p).1 = db)
  ∧ (∀ db e o n c, (updateUserPassword db e o n c).2.isOk = false →
       (updateUserPassword db e o n c).1 = db)
  ∧ (∀ db a, (updateUser db a).2.isOk = false → (updateUser db a).1 = db)
  ∧ (∀ db e fc, (resetUser db e fc).2.isOk = false → (resetUser db e fc).1 = db) := by
  refine ⟨?_, ?_, ?_, ?_, ?_⟩
  · intro V db a
    simp only [createUser]
    repeat' split
    all_goals simp
  · intro db e p
    simp only [login]
    repeat' split
    all_goals simp
  · intro db e o n c
    simp only [updateUserPassword]
    repeat' split
    all_goals simp
  · intro db a
    simp only [updateUser]
    repeat' split
    all_goals simp
  · intro db e fc
    simp only [resetUser]
    repeat' split
    all_goals simp

/-- Witness for C9: a reset request for an unknown email is rejected and
leaves the concrete state unchanged. -/
theorem mutations_atomic_on_error_witness :
    (resetUser wDB "nobody@mail.com" "5678").1 = wDB :=
  mutations_atomic_on_error.2.2.2.2 wDB "nobody@mail.com" "5678" (by decide)

/-- C10: the inserted user record of a successful signup has
isAdmin = false whenever the isAdmin argument is absent or false; it is
true exactly when a true isAdmin argument was explicitly supplied. -/
theorem createUser_isAdmin_default
    (V : Validators) (db : DB) (a : CreateArgs)
    (h : (createUser V db a).2.isOk = true) :
    ((createUser V db a).1.users.getLast?).map User.isAdmin =
      some (a.isAdmin.getD false) := by
  have hs := createUser_success_shape V db a h
  rw [hs]
  simp

/-- Witness for C10: a concrete signup without the isAdmin argument
stores isAdmin = false. -/
theorem createUser_isAdmin_default_witness :
    ((createUser allValid wDB gArgs).1.users.getLast?).map User.isAdmin =
      some false :=
  createUser_isAdmin_default allValid wDB gArgs (by decide)
